import Mathlib

/-!
Verification of the mshadow expression-template evaluation engine
(`src/mshadow/expr_engine-inl.h`) and of the standalone expression-template
example program (`src/example/exp-template/exp_template_op.cpp`).

Numeric values (C++ `float`/`real_t`) are modelled as rationals `Rat`,
buffers as total functions `Nat → Rat`, and C++ template metaprogramming
(static type inference, partial specialization) as ordinary recursion over
inductive types mirroring the expression-type hierarchy.
-/

namespace ExpTemplate

/-! Embedding of `src/example/exp-template/exp_template_op.cpp`.
A `Vec` is its buffer contents (the `len` field is the list length);
`Eval i` reads `dptr[i]`. -/

/-- Expression trees of the example file: a `Vec` leaf or a
`BinaryMapExp<OP,TLhs,TRhs>` node whose operator is a pure binary map. -/
inductive ExpT where
  | vecE (v : List Rat)
  | binaryE (op : Rat → Rat → Rat) (lhs rhs : ExpT)

/-- Eval of the example file: `Vec::Eval(i) = dptr[i]`;
`BinaryMapExp::Eval(i) = OP::Map(lhs.Eval(i), rhs.Eval(i))`. -/
def ExpT.Eval : ExpT → Nat → Rat
  | .vecE v, i => v.getD i 0
  | .binaryE op l r, i => op (l.Eval i) (r.Eval i)

/-- Operator `mul::Map(a,b) = a * b` of the example file. -/
def mul (a b : Rat) : Rat := a * b

/-- Operator `maximum::Map(a,b) = a > b ? a : b` of the example file. -/
def maximum (a b : Rat) : Rat := if a > b then a else b

/-- The assignment `Vec::operator=`: for `i = 0 .. len-1`,
`dptr[i] = src.Eval(i)`, where `len` is the destination's length. -/
def vecAssign (dst : List Rat) (src : ExpT) : List Rat :=
  (List.range dst.length).map src.Eval

theorem vecAssign_length (dst : List Rat) (src : ExpT) :
    (vecAssign dst src).length = dst.length := by
  simp [vecAssign]

theorem vecAssign_getD (dst : List Rat) (src : ExpT) (i : Nat)
    (h : i < dst.length) : (vecAssign dst src).getD i 0 = src.Eval i := by
  simp [vecAssign, List.getD, List.getElem?_map, List.getElem?_range, h]

end ExpTemplate

namespace Mshadow

/-! Static type inference (`ExpInfo`, lines 182-220 of expr_engine-inl.h):
the expression TYPE hierarchy is mirrored by an inductive.  A `Tensor`
type carries its device mask and its rank; a `MakeTensorExp` carries the
rank it declares. -/

/-- Expression types that have an `ExpInfo` specialization: `ScalarExp`,
`Tensor<Device,dim>`, `TransposeExp<E>`, `MakeTensorExp<T,SrcExp,dim>`,
`UnaryMapExp<OP,TA,etype>`, `BinaryMapExp<OP,TA,TB,etype>`. -/
inductive ETy where
  | scalarT
  | tensorT (devMask : Nat) (dim : Nat)
  | transposeT (e : ETy)
  | makeTensorT (src : ETy) (dim : Nat)
  | unaryT (e : ETy)
  | binaryT (l r : ETy)

/-- The `kDim` expression of `ExpInfo<BinaryMapExp>` (lines 217-218):
`(kDimLhs>=0 && kDimRhs>=0) ? (kDimLhs==0 ? kDimRhs :
((kDimRhs==0||kDimLhs==kDimRhs) ? kDimLhs : -1)) : -1`. -/
def binaryKDim (a b : Int) : Int :=
  if 0 ≤ a ∧ 0 ≤ b then
    (if a = 0 then b else if b = 0 ∨ a = b then a else -1)
  else -1

/-- `ExpInfo<E>::kDim` for each specialization: scalar is 0, tensor is its
rank, transpose and unary map take the child's, `MakeTensorExp` takes its
declared rank unless the source is mismatched, binary map combines via
`binaryKDim`. -/
def kDim : ETy → Int
  | .scalarT => 0
  | .tensorT _ d => (d : Int)
  | .transposeT e => kDim e
  | .makeTensorT s d => if 0 ≤ kDim s then (d : Int) else -1
  | .unaryT e => kDim e
  | .binaryT l r => binaryKDim (kDim l) (kDim r)

/-- `ExpInfo<E>::kDevMask` for each specialization: scalar is `0xffff`,
tensor is its device's mask, others propagate, binary map takes the
bitwise AND. -/
def kDevMask : ETy → Nat
  | .scalarT => 0xffff
  | .tensorT m _ => m
  | .transposeT e => kDevMask e
  | .makeTensorT s _ => kDevMask s
  | .unaryT e => kDevMask e
  | .binaryT l r => kDevMask l &&& kDevMask r

/-- The binary dimension rule in the words of the specification: an
operand of dimension 0 yields the other operand's dimension; otherwise
equal dimensions yield that dimension and unequal ones yield -1, with -1
in either operand also propagating to -1. -/
def specBinaryDimRule (a b : Int) : Int :=
  if a = 0 then b
  else if b = 0 then a
  else if a = -1 ∨ b = -1 then -1
  else if a = b then a
  else -1

theorem kDim_ge_neg_one (e : ETy) : -1 ≤ kDim e := by
  induction e with
  | scalarT => simp [kDim]
  | tensorT m d => simp [kDim]; omega
  | transposeT e ih => simpa [kDim] using ih
  | makeTensorT s d ih =>
      simp only [kDim]
      split <;> omega
  | unaryT e ih => simpa [kDim] using ih
  | binaryT l r ihl ihr =>
      simp only [kDim, binaryKDim]
      split
      · split
        · omega
        · split <;> omega
      · omega

theorem binaryKDim_eq_spec (a b : Int) (ha : -1 ≤ a) (hb : -1 ≤ b) :
    binaryKDim a b = specBinaryDimRule a b := by
  unfold binaryKDim specBinaryDimRule
  split_ifs <;> omega

/-! The derived static checks (`TypeCheck`, lines 222-233). -/

/-- `TypeCheck::kDevPass`: `(ExpInfo<E>::kDevMask & Device::kDevMask) != 0`. -/
def kDevPass (expMask devMask : Nat) : Bool :=
  decide ((expMask &&& devMask) ≠ 0)

/-- `TypeCheck::kMapPass`: `(kExpDim == 0 || kExpDim == dim) && kDevPass`. -/
def kMapPass (expDim : Int) (expMask : Nat) (dim : Int) (devMask : Nat) : Bool :=
  (decide (expDim = 0) || decide (expDim = dim)) && kDevPass expMask devMask

/-- `TypeCheck::kRedPass`: `(kExpDim > dim) && kDevPass`. -/
def kRedPass (expDim : Int) (expMask : Nat) (dim : Int) (devMask : Nat) : Bool :=
  decide (expDim > dim) && kDevPass expMask devMask

/-- The unspecialized `ExpInfo` template's `kDim` (line 184): -1. -/
def defaultExpInfoKDim : Int := -1

/-- The unspecialized `ExpInfo` template's `kDevMask` (line 185): 0. -/
def defaultExpInfoKDevMask : Nat := 0

end Mshadow

namespace ExpTemplate

/-- Claim C1: for every destination vector and pure binary elementwise
operator, `dst = A op B` writes `op(A[i], B[i])` at every coordinate
`i < len` (with compatible operand lengths), and the concrete program
`A = B * F<maximum>(C, B)` with `B=[2,3,4]`, `C=[3,4,5]` produces
`A = [6,12,20]`. -/
theorem binary_assign_correct :
    (∀ (dst A B : List Rat) (op : Rat → Rat → Rat) (i : Nat),
        A.length = dst.length → B.length = dst.length → i < dst.length →
        (vecAssign dst (.binaryE op (.vecE A) (.vecE B))).getD i 0 =
          op (A.getD i 0) (B.getD i 0)) ∧
    vecAssign [1, 2, 3]
        (.binaryE mul (.vecE [2, 3, 4])
          (.binaryE maximum (.vecE [3, 4, 5]) (.vecE [2, 3, 4]))) =
      [6, 12, 20] := by
  constructor
  · intro dst A B op i _ _ hi
    rw [vecAssign_getD dst _ i hi]
    rfl
  · norm_num [vecAssign, List.range_succ, ExpT.Eval, mul, maximum]

/-- Witness for C1: the general clause applied at `dst=[0,0,0]`,
`A=[2,3,4]`, `B=[5,1,7]`, `op = mul`, `i = 1`. -/
theorem binary_assign_correct_witness :
    (vecAssign [0, 0, 0] (.binaryE mul (.vecE [2, 3, 4]) (.vecE [5, 1, 7]))).getD 1 0 =
      mul ([2, 3, 4].getD 1 0) ([5, 1, 7].getD 1 0) :=
  binary_assign_correct.1 [0, 0, 0] [2, 3, 4] [5, 1, 7] mul 1
    (by decide) (by decide) (by decide)

end ExpTemplate

namespace Mshadow

/-- Claim C3: the statically inferred dimension of a binary map expression
follows the rule: a 0 (scalar) operand yields the other operand's
dimension, otherwise equal dimensions yield that dimension and unequal
ones yield -1, with -1 in either operand propagating to -1. -/
theorem binary_kDim_rule (l r : ETy) :
    kDim (.binaryT l r) = specBinaryDimRule (kDim l) (kDim r) := by
  have hl := kDim_ge_neg_one l
  have hr := kDim_ge_neg_one r
  simpa [kDim] using binaryKDim_eq_spec (kDim l) (kDim r) hl hr

/-- Claim C9: with the unspecialized `ExpInfo` defaults `kDim = -1` and
`kDevMask = 0`, both `kMapPass` and `kRedPass` are false for every
destination dimension and every device mask. -/
theorem default_expinfo_never_passes (dim : Int) (devMask : Nat) :
    kMapPass defaultExpInfoKDim defaultExpInfoKDevMask dim devMask = false ∧
    kRedPass defaultExpInfoKDim defaultExpInfoKDevMask dim devMask = false := by
  have h : kDevPass defaultExpInfoKDevMask devMask = false := by
    simp [kDevPass, defaultExpInfoKDevMask]
  constructor
  · simp [kMapPass, h]
  · simp [kRedPass, h]

end Mshadow

namespace Mshadow

/-! Rank-2 tensors, plans and the dot engine.  `Shape<2>` indexing is
`shape[1]`, `shape[0]`; the plan of a rank-2 tensor reads
`dptr[y*stride + x]`, so the coordinate `y` ranges over axis 1 and `x`
over axis 0. -/

/-- Rank-2 shape: `s1` is the extent of axis 1 (the `y` axis), `s0` the
extent of axis 0 (the lowest, `x` axis). -/
structure Shape2 where
  s1 : Nat
  s0 : Nat
deriving DecidableEq

/-- Rows of a rank-2 shape: the extent of axis 1, the axis the plan
coordinate `y` ranges over. -/
def Shape2.rows (s : Shape2) : Nat := s.s1

/-- Columns of a rank-2 shape: the extent of axis 0, the contiguous axis. -/
def Shape2.cols (s : Shape2) : Nat := s.s0

/-- Modelled from the spec: the `Shape2(ymax, xmax)` helper lives in
`tensor.h`, which is not among the sources; a shape is the ordered
sequence of per-axis extents and, per the spec, the transpose flag must
swap the two lowest axes, so `Shape2` puts `ymax` on axis 1 and `xmax` on
axis 0. -/
def mkShape2 (ymax xmax : Nat) : Shape2 := ⟨ymax, xmax⟩

/-- `GetShape` (lines 378-380): `transpose ? Shape2(shape[0],shape[1]) :
shape`, the effective operand shape after applying a transpose flag. -/
def GetShape (shape : Shape2) (transpose : Bool) : Shape2 :=
  if transpose then mkShape2 shape.s0 shape.s1 else shape

/-- A rank-2 tensor: flat buffer, shape, and the stride of axis 1. -/
structure Tensor2 where
  dptr : Nat → Rat
  shape : Shape2
  stride : Nat

/-- A rank-1 tensor: flat buffer and its length `shape[0]`. -/
structure Tensor1 where
  dptr : Nat → Rat
  len : Nat

/-- Cell `(y, x)` of a rank-2 tensor: `dptr[y*stride + x]`. -/
def Tensor2.cell (t : Tensor2) (y x : Nat) : Rat := t.dptr (y * t.stride + x)

/-- Sum of `f 0 + ... + f (k-1)`. -/
def sumK (k : Nat) (f : Nat → Rat) : Rat := ((List.range k).map f).sum

/-- Modelled from the spec: the external BLAS binding (spec section 6)
with column-major semantics.  `gemm` updates the `m x n` column-major
matrix `C` of leading dimension `ldc` to `alpha * op(A) * op(B) + beta *
C`, where `op` transposes when the corresponding flag is set; buffer
entries outside the written block are untouched. -/
def gemm (transa transb : Bool) (m n k : Nat) (alpha : Rat)
    (A : Nat → Rat) (lda : Nat) (B : Nat → Rat) (ldb : Nat)
    (beta : Rat) (C : Nat → Rat) (ldc : Nat) : Nat → Rat :=
  let opA : Nat → Nat → Rat := fun i l =>
    if transa then A (l + i * lda) else A (i + l * lda)
  let opB : Nat → Nat → Rat := fun l j =>
    if transb then B (j + l * ldb) else B (l + j * ldb)
  fun p =>
    if p % ldc < m ∧ p / ldc < n then
      alpha * sumK k (fun l => opA (p % ldc) l * opB l (p / ldc)) + beta * C p
    else C p

/-- Modelled from the spec: the external BLAS binding's `ger` (spec
section 6), the column-major rank-1 update `A := alpha * X * Y^T + A` of
the `m x n` block of `A`. -/
def ger (m n : Nat) (alpha : Rat) (X : Nat → Rat) (incX : Nat)
    (Y : Nat → Rat) (incY : Nat) (A : Nat → Rat) (lda : Nat) : Nat → Rat :=
  fun p =>
    if p % lda < m ∧ p / lda < n then
      A p + alpha * X (p % lda * incX) * Y (p / lda * incY)
    else A p

/-- The shape assert of `DotEngine<SV,xpu,2,2,2>::Eval` (lines 385-388):
`dst.shape[1]==sleft[1] && dst.shape[0]==sright[0] && sleft[0]==sright[1]`
over the effective (transpose-adjusted) operand shapes. -/
def gemmShapePass (lt rt : Bool) (dshape lshape rshape : Shape2) : Bool :=
  dshape.s1 == (GetShape lshape lt).s1 && dshape.s0 == (GetShape rshape rt).s0 &&
    (GetShape lshape lt).s0 == (GetShape rshape rt).s1

/-- `DotEngine<SV,xpu,2,2,2,transpose_left,transpose_right>::Eval` (lines
384-400): assert the gemm shape check, then call column-major `gemm` with
the operands swapped.  A failed `utils::Assert` aborts before any write
and is modelled as the untouched destination paired with the message. -/
def DotEval222 (lt rt : Bool) (dst lhs rhs : Tensor2)
    (scale alphaSV betaSV : Rat) : Tensor2 × Option String :=
  if gemmShapePass lt rt dst.shape lhs.shape rhs.shape then
    ({ dst with dptr :=
        (gemm rt lt
          (if rt then rhs.shape.s1 else rhs.shape.s0)
          (if lt then lhs.shape.s0 else lhs.shape.s1)
          (if rt then rhs.shape.s0 else rhs.shape.s1)
          (scale * alphaSV) rhs.dptr rhs.stride lhs.dptr lhs.stride
          betaSV dst.dptr dst.stride) }, none)
  else (dst, some "dot-gemm: matrix shape mismatch")

/-- Modelled from the spec: `Tensor<Device,1>::FlatTo2D` is in `tensor.h`,
absent from the sources; it expresses a length-`n` vector as a rank-2
tensor of one row and `n` columns (packed, so the stride is `n`). -/
def FlatTo2D (t : Tensor1) : Tensor2 := ⟨t.dptr, ⟨1, t.len⟩, t.len⟩

/-- The shape assert of `DotEngine<SV,xpu,2,1,1,true,false>::Eval` (line
418): `dst.shape[1]==lhs.shape[0] && dst.shape[0]==rhs.shape[0]`. -/
def gerShapePass (dshape : Shape2) (lhs rhs : Tensor1) : Bool :=
  dshape.s1 == lhs.len && dshape.s0 == rhs.len

/-- The ger branch of `DotEngine<SV,xpu,2,1,1,true,false>::Eval` (lines
420-422): `ger(rhs.shape[0], lhs.shape[0], scale*kAlphaBLAS, rhs, 1, lhs,
1, dst, dst.stride)`. -/
def gerBranch (dst : Tensor2) (lhs rhs : Tensor1) (scale alphaSV : Rat) :
    Tensor2 :=
  { dst with dptr :=
      (ger rhs.len lhs.len (scale * alphaSV) rhs.dptr 1 lhs.dptr 1
        dst.dptr dst.stride) }

/-- The fallback branch of `DotEngine<SV,xpu,2,1,1,true,false>::Eval`
(line 424): both vectors reshaped to rank 2 and passed to the (2,2,2)
engine with flags (true, false). -/
def gemmFallback (dst : Tensor2) (lhs rhs : Tensor1)
    (scale alphaSV betaSV : Rat) : Tensor2 × Option String :=
  DotEval222 true false dst (FlatTo2D lhs) (FlatTo2D rhs) scale alphaSV betaSV

/-- `DotEngine<SV,xpu,2,1,1,true,false>::Eval` (lines 415-427): assert
the shapes, then take the ger branch when `SV::kBetaBLAS < 1e-6f` and the
gemm fallback otherwise. -/
def DotEval211 (dst : Tensor2) (lhs rhs : Tensor1)
    (scale alphaSV betaSV : Rat) : Tensor2 × Option String :=
  if gerShapePass dst.shape lhs rhs then
    if betaSV < (1 : Rat) / 1000000 then
      (gerBranch dst lhs rhs scale alphaSV, none)
    else gemmFallback dst lhs rhs scale alphaSV betaSV
  else (dst, some "dot-ger: matrix shape mismatch")

/-- Rank-2 expression values over which plans are built: tensor leaf,
`ScalarExp`, `UnaryMapExp`, `BinaryMapExp`, `TransposeExp`. -/
inductive Expr2 where
  | tensorE (t : Tensor2)
  | scalarE (c : Rat)
  | unaryE (op : Rat → Rat) (src : Expr2)
  | binaryE (op : Rat → Rat → Rat) (lhs rhs : Expr2)
  | transposeE (e : Expr2)

/-- Plan nodes (`Plan<...>`, lines 32-136): each stores what its C++
constructor stores. -/
inductive Plan2 where
  | tensorP (dptr : Nat → Rat) (stride : Nat)
  | scalarP (c : Rat)
  | unaryP (op : Rat → Rat) (src : Plan2)
  | binaryP (op : Rat → Rat → Rat) (lhs rhs : Plan2)
  | transposeP (src : Plan2)

/-- Plan evaluation `Eval(y, x)`: a tensor plan reads `dptr[y*stride+x]`,
a scalar plan returns the stored constant regardless of the coordinates,
unary and binary plans apply `OP::Map` to the children at the same
coordinates, and a transpose plan evaluates its child at `(x, y)`. -/
def Plan2.Eval : Plan2 → Nat → Nat → Rat
  | .tensorP d s, y, x => d (y * s + x)
  | .scalarP c, _, _ => c
  | .unaryP f p, y, x => f (p.Eval y x)
  | .binaryP f l r, y, x => f (l.Eval y x) (r.Eval y x)
  | .transposeP p, y, x => p.Eval x y

/-- `MakePlan` (lines 140-171): the structural transform from expressions
to plans, children first. -/
def MakePlan : Expr2 → Plan2
  | .tensorE t => .tensorP t.dptr t.stride
  | .scalarE c => .scalarP c
  | .unaryE f s => .unaryP f (MakePlan s)
  | .binaryE f l r => .binaryP f (MakePlan l) (MakePlan r)
  | .transposeE e => .transposeP (MakePlan e)

/-- `ShapeCheck<2,E>::Check` (lines 249-300).  The scalar case writes only
`shape[0] = 0` and leaves the other extent uninitialized, modelled by the
`junk` parameter; the binary case returns the other operand's shape when
one shape is the scalar marker, and otherwise asserts equality, the
failing assert modelled as the error message of line 297. -/
def ShapeCheck2 (junk : Nat) : Expr2 → Except String Shape2
  | .tensorE t => .ok t.shape
  | .scalarE _ => .ok ⟨junk, 0⟩
  | .unaryE _ s => ShapeCheck2 junk s
  | .transposeE e =>
      match ShapeCheck2 junk e with
      | .ok s => .ok ⟨s.s0, s.s1⟩
      | .error msg => .error msg
  | .binaryE _ l r =>
      match ShapeCheck2 junk l, ShapeCheck2 junk r with
      | .ok sa, .ok sb =>
          if sa.s0 = 0 then .ok sb
          else if sb.s0 = 0 then .ok sa
          else if sa = sb then .ok sa
          else .error "BinaryMapExp: Shapes of two tensors in BinaryMapExp expression is not the same"
      | .error msg, _ => .error msg
      | .ok _, .error msg => .error msg

/-- Destination write of the generic evaluator: every cell `(y, x)` of
the destination shape receives `plan.Eval(y, x)`; buffer entries outside
the destination block are untouched. -/
def writeAll (dst : Tensor2) (p : Plan2) : Tensor2 :=
  { dst with dptr := (fun idx =>
      if idx % dst.stride < dst.shape.s0 ∧ idx / dst.stride < dst.shape.s1 then
        p.Eval (idx / dst.stride) (idx % dst.stride)
      else dst.dptr idx) }

/-- Modelled from the spec: the generic elementwise evaluator `MapExp` is
only referenced by `ExpEngine` (lines 440-446) and its body is not among
the sources; per the spec (sections 4.4 and 7) it runs the recursive
shape check first and, only when that check passes, assigns
`dst.Eval(y,x) = plan.Eval(y,x)` at every coordinate of the destination
shape, so a failed check happens before any destination cell is
written. -/
def MapExp (junk : Nat) (dst : Tensor2) (e : Expr2) :
    Tensor2 × Option String :=
  match ShapeCheck2 junk e with
  | .error msg => (dst, some msg)
  | .ok _ => (writeAll dst (MakePlan e), none)

/-- Partial specializations of `DotEngine` that define `Eval` (lines 383,
403 and 416), as a relation over the dispatch key (destination rank, left
operand rank, right operand rank, left-transpose, right-transpose); the
unspecialized template (lines 305-308) only declares `Eval` without a
body. -/
inductive DotEngineDefined : Nat → Nat → Nat → Bool → Bool → Prop where
  | gemmDef (lt rt : Bool) : DotEngineDefined 2 2 2 lt rt
  | gemvDef (rt : Bool) : DotEngineDefined 1 1 2 false rt
  | gerDef : DotEngineDefined 2 1 1 true false

/-- The claim's reading of the gemm shape check (claim C2): destination
rows = left operand's effective columns, destination columns = right
operand's effective rows, left operand's effective columns = right
operand's effective rows. -/
def specGemmShapeClaim (lt rt : Bool) (dshape lshape rshape : Shape2) : Prop :=
  dshape.rows = (GetShape lshape lt).cols ∧
  dshape.cols = (GetShape rshape rt).rows ∧
  (GetShape lshape lt).cols = (GetShape rshape rt).rows

theorem gemmShapePass_iff (lt rt : Bool) (d l r : Shape2) :
    gemmShapePass lt rt d l r = true ↔
      (d.rows = (GetShape l lt).rows ∧ d.cols = (GetShape r rt).cols ∧
        (GetShape l lt).cols = (GetShape r rt).rows) := by
  simp [gemmShapePass, Shape2.rows, Shape2.cols, and_assoc]

/-- Claim C2 counterexample: with a 2 x 3 destination, a 2 x 4 left
operand, a 4 x 3 right operand and no transposition, the dot-gemm shape
check of the code passes and evaluation raises no error, yet the claimed
conditions are false: the destination's rows (2) differ from the left
operand's effective columns (4). -/
theorem gemm_shape_claim_counterexample :
    (DotEval222 false false ⟨fun _ => 0, ⟨2, 3⟩, 3⟩ ⟨fun _ => 0, ⟨2, 4⟩, 4⟩
        ⟨fun _ => 0, ⟨4, 3⟩, 3⟩ 1 1 0).2 = none ∧
      ¬ specGemmShapeClaim false false ⟨2, 3⟩ ⟨2, 4⟩ ⟨4, 3⟩ := by
  constructor
  · rfl
  · unfold specGemmShapeClaim
    decide

/-- Claim C2 (amended): the (2,2,2) dot dispatch fails with the error
naming dot-gemm exactly when the corrected shape conditions fail: the
destination's rows must equal the left operand's effective rows, the
destination's columns the right operand's effective columns, and the left
operand's effective columns the right operand's effective rows
(effective = after applying each operand's transpose flag). -/
theorem gemm_shape_check_amended (lt rt : Bool) (dst lhs rhs : Tensor2)
    (scale alphaSV betaSV : Rat) :
    (DotEval222 lt rt dst lhs rhs scale alphaSV betaSV).2 =
        some "dot-gemm: matrix shape mismatch" ↔
      ¬ (dst.shape.rows = (GetShape lhs.shape lt).rows ∧
         dst.shape.cols = (GetShape rhs.shape rt).cols ∧
         (GetShape lhs.shape lt).cols = (GetShape rhs.shape rt).rows) := by
  rw [← gemmShapePass_iff lt rt dst.shape lhs.shape rhs.shape]
  unfold DotEval222
  cases h : gemmShapePass lt rt dst.shape lhs.shape rhs.shape <;> simp [h]

/-- Claim C5: a failed shape check raises its error before any destination
cell is written.  A binary map over two non-scalar operands of unequal
shapes returns the shape-mismatch error with the destination unchanged,
and the (2,2,2) dot engine returns its destination unchanged with the
dot-gemm error whenever its shape assert fails. -/
theorem shape_mismatch_no_write (junk : Nat) (dst : Tensor2)
    (op : Rat → Rat → Rat) (a b : Tensor2)
    (ha : a.shape.s0 ≠ 0) (hb : b.shape.s0 ≠ 0) (hab : a.shape ≠ b.shape)
    (lt rt : Bool) (dst2 lhs rhs : Tensor2) (scale alphaSV betaSV : Rat)
    (hdot : gemmShapePass lt rt dst2.shape lhs.shape rhs.shape = false) :
    MapExp junk dst (.binaryE op (.tensorE a) (.tensorE b)) =
        (dst, some "BinaryMapExp: Shapes of two tensors in BinaryMapExp expression is not the same") ∧
      DotEval222 lt rt dst2 lhs rhs scale alphaSV betaSV =
        (dst2, some "dot-gemm: matrix shape mismatch") := by
  constructor
  · simp [MapExp, ShapeCheck2, ha, hb, hab]
  · simp [DotEval222, hdot]

/-- Witness for C5: a 1 x 1 and a 1 x 2 operand (both non-scalar, unequal
shapes) under addition, and a dot with left effective columns 2 against
right effective rows 1. -/
theorem shape_mismatch_no_write_witness :
    MapExp 0 ⟨fun _ => 5, ⟨1, 1⟩, 1⟩
        (.binaryE (fun u v => u + v) (.tensorE ⟨fun _ => 0, ⟨1, 1⟩, 1⟩)
          (.tensorE ⟨fun _ => 0, ⟨1, 2⟩, 2⟩)) =
      (⟨fun _ => 5, ⟨1, 1⟩, 1⟩,
        some "BinaryMapExp: Shapes of two tensors in BinaryMapExp expression is not the same") ∧
    DotEval222 false false ⟨fun _ => 7, ⟨1, 1⟩, 1⟩ ⟨fun _ => 0, ⟨1, 2⟩, 2⟩
        ⟨fun _ => 0, ⟨1, 1⟩, 1⟩ 1 1 0 =
      (⟨fun _ => 7, ⟨1, 1⟩, 1⟩, some "dot-gemm: matrix shape mismatch") :=
  shape_mismatch_no_write 0 ⟨fun _ => 5, ⟨1, 1⟩, 1⟩ (fun u v => u + v)
    ⟨fun _ => 0, ⟨1, 1⟩, 1⟩ ⟨fun _ => 0, ⟨1, 2⟩, 2⟩
    (by decide) (by decide) (by decide)
    false false ⟨fun _ => 7, ⟨1, 1⟩, 1⟩ ⟨fun _ => 0, ⟨1, 2⟩, 2⟩
    ⟨fun _ => 0, ⟨1, 1⟩, 1⟩ 1 1 0 (by decide)

/-- Claim C4: shape derivation of a binary map.  A scalar expression
derives to the marker shape with leading extent 0; when exactly one
operand shape is the marker the other operand's shape is returned; two
non-marker shapes are asserted equal (axis by axis, as equality of both
extents) and their common shape is returned, the mismatch raising the
shape error. -/
theorem binary_shape_derivation (junk : Nat) (op : Rat → Rat → Rat)
    (l r : Expr2) (sa sb : Shape2) (c : Rat)
    (hl : ShapeCheck2 junk l = .ok sa) (hr : ShapeCheck2 junk r = .ok sb) :
    (ShapeCheck2 junk (.scalarE c) = .ok ⟨junk, 0⟩) ∧
    (sa.s0 = 0 → sb.s0 ≠ 0 → ShapeCheck2 junk (.binaryE op l r) = .ok sb) ∧
    (sa.s0 ≠ 0 → sb.s0 = 0 → ShapeCheck2 junk (.binaryE op l r) = .ok sa) ∧
    (sa.s0 ≠ 0 → sb.s0 ≠ 0 → sa.s1 = sb.s1 → sa.s0 = sb.s0 →
      ShapeCheck2 junk (.binaryE op l r) = .ok sa) ∧
    (sa.s0 ≠ 0 → sb.s0 ≠ 0 → sa ≠ sb → ShapeCheck2 junk (.binaryE op l r) =
      .error "BinaryMapExp: Shapes of two tensors in BinaryMapExp expression is not the same") := by
  refine ⟨rfl, ?_, ?_, ?_, ?_⟩
  · intro h1 h2
    unfold ShapeCheck2
    simp [hl, hr, h1]
  · intro h1 h2
    unfold ShapeCheck2
    simp [hl, hr, h1, h2]
  · intro h1 h2 h3 h4
    have : sa = sb := by cases sa; cases sb; simp_all
    unfold ShapeCheck2
    simp [hl, hr, h1, h2, this]
  · intro h1 h2 h3
    unfold ShapeCheck2
    simp [hl, hr, h1, h2, h3]

/-- Witness for C4: two tensor leaves of shape 1 x 2, scalar constant 3. -/
theorem binary_shape_derivation_witness :
    ShapeCheck2 7 (.scalarE 3) = .ok ⟨7, 0⟩ ∧
    ShapeCheck2 7 (.binaryE (fun u v => u * v)
        (.tensorE ⟨fun _ => 0, ⟨1, 2⟩, 2⟩) (.tensorE ⟨fun _ => 1, ⟨1, 2⟩, 2⟩)) =
      .ok ⟨1, 2⟩ :=
  have h := binary_shape_derivation 7 (fun u v => u * v)
    (.tensorE ⟨fun _ => 0, ⟨1, 2⟩, 2⟩) (.tensorE ⟨fun _ => 1, ⟨1, 2⟩, 2⟩)
    ⟨1, 2⟩ ⟨1, 2⟩ 3 rfl rfl
  ⟨h.1, h.2.2.2.1 (by decide) (by decide) (by decide) (by decide)⟩

/-- Claim C7: the plan built from a doubly transposed expression evaluates
to the same value as the plan built from the expression itself, at every
coordinate, because a transpose plan evaluates its child with row and
column swapped. -/
theorem transpose_transpose_id (A : Expr2) (y x : Nat) :
    (MakePlan (.transposeE (.transposeE A))).Eval y x = (MakePlan A).Eval y x :=
  rfl

/-- Claim C10: an Eval-bearing `DotEngine` specialization exists exactly
for the rank signature (2,2,2) with any transpose flags, (1,1,2) with the
left flag false, and (2,1,1) with flags (true, false); every other
dispatch key has only the unimplemented generic declaration. -/
theorem dot_engine_dispatch (d l r : Nat) (lt rt : Bool) :
    DotEngineDefined d l r lt rt ↔
      ((d = 2 ∧ l = 2 ∧ r = 2) ∨
       (d = 1 ∧ l = 1 ∧ r = 2 ∧ lt = false) ∨
       (d = 2 ∧ l = 1 ∧ r = 1 ∧ lt = true ∧ rt = false)) := by
  constructor
  · rintro (⟨⟩ | ⟨⟩ | ⟨⟩) <;> simp
  · rintro (⟨rfl, rfl, rfl⟩ | ⟨rfl, rfl, rfl, rfl⟩ |
      ⟨rfl, rfl, rfl, rfl, rfl⟩)
    · exact .gemmDef lt rt
    · exact .gemvDef rt
    · exact .gerDef

theorem decode_write_idx (y x stride : Nat) (hx : x < stride) :
    (y * stride + x) % stride = x ∧ (y * stride + x) / stride = y := by
  have h0 : 0 < stride := Nat.lt_of_le_of_lt (Nat.zero_le x) hx
  constructor
  · rw [Nat.add_comm, Nat.add_mul_mod_self_right]
    exact Nat.mod_eq_of_lt hx
  · rw [Nat.add_comm, Nat.add_mul_div_right x y h0, Nat.div_eq_of_lt hx]
    simp

/-- Claim C8: a scalar plan evaluates to its stored constant at every
coordinate, and evaluating `dst = A * s` through the generic evaluator
writes `A(y,x) * s` into every destination cell `(y, x)`. -/
theorem scalar_broadcast (s : Rat) (junk : Nat) (dst A : Tensor2) (y x : Nat)
    (hy : y < dst.shape.s1) (hx : x < dst.shape.s0)
    (hs : dst.shape.s0 ≤ dst.stride) :
    (Plan2.scalarP s).Eval y x = s ∧
    (MapExp junk dst (.binaryE (fun u v => u * v) (.tensorE A) (.scalarE s))).2 =
      none ∧
    ((MapExp junk dst (.binaryE (fun u v => u * v) (.tensorE A)
        (.scalarE s))).1).cell y x = A.cell y x * s := by
  have hxs : x < dst.stride := lt_of_lt_of_le hx hs
  obtain ⟨hm, hd⟩ := decode_write_idx y x dst.stride hxs
  refine ⟨rfl, ?_, ?_⟩
  · by_cases hA : A.shape.s0 = 0 <;> simp [MapExp, ShapeCheck2, hA]
  · have hok : (MapExp junk dst (.binaryE (fun u v => u * v) (.tensorE A)
        (.scalarE s))).1 =
        writeAll dst (MakePlan (.binaryE (fun u v => u * v) (.tensorE A)
          (.scalarE s))) := by
      by_cases hA : A.shape.s0 = 0 <;> simp [MapExp, ShapeCheck2, hA]
    rw [hok]
    unfold writeAll Tensor2.cell
    simp only [hm, hd]
    simp [hx, hy, MakePlan, Plan2.Eval]

/-- Witness for C8: a 1 x 1 destination, the tensor holding 2, scalar 3,
coordinate (0, 0). -/
theorem scalar_broadcast_witness :
    (Plan2.scalarP 3).Eval 0 0 = 3 ∧
    (MapExp 0 ⟨fun _ => 0, ⟨1, 1⟩, 1⟩ (.binaryE (fun u v => u * v)
        (.tensorE ⟨fun _ => 2, ⟨1, 1⟩, 1⟩) (.scalarE 3))).2 = none ∧
    ((MapExp 0 ⟨fun _ => 0, ⟨1, 1⟩, 1⟩ (.binaryE (fun u v => u * v)
        (.tensorE ⟨fun _ => 2, ⟨1, 1⟩, 1⟩) (.scalarE 3))).1).cell 0 0 =
      Tensor2.cell ⟨fun _ => 2, ⟨1, 1⟩, 1⟩ 0 0 * 3 :=
  scalar_broadcast 3 0 ⟨fun _ => 0, ⟨1, 1⟩, 1⟩ ⟨fun _ => 2, ⟨1, 1⟩, 1⟩ 0 0
    (by decide) (by decide) (by decide)

/-- Claim C6 counterexample: with beta = 0, scale and alpha 1, a 1 x 1
destination holding 1 and both vectors [1], the ger branch accumulates
into the dirty destination (the cell becomes 2) while the rank-2 gemm
fallback overwrites it (the cell becomes 1): the two branches do not
agree at every destination whenever beta is zero. -/
theorem ger_fallback_disagree :
    (gerBranch ⟨fun _ => 1, ⟨1, 1⟩, 1⟩ ⟨fun _ => 1, 1⟩ ⟨fun _ => 1, 1⟩
        1 1).dptr 0 = 2 ∧
    ((gemmFallback ⟨fun _ => 1, ⟨1, 1⟩, 1⟩ ⟨fun _ => 1, 1⟩ ⟨fun _ => 1, 1⟩
        1 1 0).1).dptr 0 = 1 := by
  constructor
  · norm_num [gerBranch, ger]
  · norm_num [gemmFallback, DotEval222, gemmShapePass, GetShape, mkShape2,
      FlatTo2D, gemm, sumK, List.range_succ]

/-- Claim C6 (amended): with the accumulation coefficients of the spec
(beta 0 for overwrite, 1 for accumulate) and a destination of matching
shape, the (2,1,1) engine evaluates by BLAS ger exactly when beta is
zero, and otherwise reshapes both vectors to rank 2 and reuses the
(2,2,2) gemm path; at beta = 0 the two branches agree on the whole
destination whenever the destination buffer is zero-initialized. -/
theorem ger_dispatch_amended (dst : Tensor2) (lhs rhs : Tensor1)
    (scale alphaSV betaSV : Rat)
    (hpass : gerShapePass dst.shape lhs rhs = true)
    (hbeta : betaSV = 0 ∨ betaSV = 1)
    (hzero : ∀ p, dst.dptr p = 0) :
    (DotEval211 dst lhs rhs scale alphaSV betaSV =
        if betaSV = 0 then (gerBranch dst lhs rhs scale alphaSV, none)
        else gemmFallback dst lhs rhs scale alphaSV betaSV) ∧
    (∀ p, (gerBranch dst lhs rhs scale alphaSV).dptr p =
        ((gemmFallback dst lhs rhs scale alphaSV 0).1).dptr p) := by
  have hsh : dst.shape.s1 = lhs.len ∧ dst.shape.s0 = rhs.len := by
    simpa [gerShapePass] using hpass
  constructor
  · rcases hbeta with rfl | rfl
    · have hlt : (0 : Rat) < 1 / 1000000 := by norm_num
      unfold DotEval211
      rw [if_pos hpass, if_pos hlt, if_pos rfl]
    · have hlt : ¬ ((1 : Rat) < 1 / 1000000) := by norm_num
      have h1 : ¬ ((1 : Rat) = 0) := one_ne_zero
      unfold DotEval211
      rw [if_pos hpass, if_neg hlt, if_neg h1]
  · intro p
    have hpass2 : gemmShapePass true false dst.shape (FlatTo2D lhs).shape
        (FlatTo2D rhs).shape = true := by
      simp [gemmShapePass, GetShape, mkShape2, FlatTo2D, hsh.1, hsh.2]
    simp only [gemmFallback, DotEval222, hpass2, if_true]
    unfold gerBranch ger gemm
    by_cases hc : p % dst.stride < rhs.len ∧ p / dst.stride < lhs.len
    · simp [hc, sumK, hzero, FlatTo2D, List.range_succ]
      ring
    · simp [hc, FlatTo2D]

/-- Witness for C6: zero-initialized 1 x 1 destination, vectors [1] and
[1], scale and alpha 1, beta 0. -/
theorem ger_dispatch_amended_witness :
    (DotEval211 ⟨fun _ => 0, ⟨1, 1⟩, 1⟩ ⟨fun _ => 1, 1⟩ ⟨fun _ => 1, 1⟩
        1 1 0 =
      if (0 : Rat) = 0 then
        (gerBranch ⟨fun _ => 0, ⟨1, 1⟩, 1⟩ ⟨fun _ => 1, 1⟩ ⟨fun _ => 1, 1⟩
          1 1, none)
      else gemmFallback ⟨fun _ => 0, ⟨1, 1⟩, 1⟩ ⟨fun _ => 1, 1⟩
        ⟨fun _ => 1, 1⟩ 1 1 0) ∧
    (∀ p, (gerBranch ⟨fun _ => 0, ⟨1, 1⟩, 1⟩ ⟨fun _ => 1, 1⟩ ⟨fun _ => 1, 1⟩
        1 1).dptr p =
      ((gemmFallback ⟨fun _ => 0, ⟨1, 1⟩, 1⟩ ⟨fun _ => 1, 1⟩ ⟨fun _ => 1, 1⟩
        1 1 0).1).dptr p) :=
  ger_dispatch_amended ⟨fun _ => 0, ⟨1, 1⟩, 1⟩ ⟨fun _ => 1, 1⟩
    ⟨fun _ => 1, 1⟩ 1 1 0 (by decide) (Or.inl rfl) (fun _ => rfl)

end Mshadow
